import Mathlib

/-!
Shallow embedding of the anemia-screening image preprocessing and inference
adapter from `models/ModelManager.js` (src/unnamed/part_002), together with the
upload validation used by the `/predict` route (src/server.js).

JavaScript numbers are modelled as exact rationals extended with the
non-finite values `NaN`, `Infinity` and `-Infinity`; the pixel buffer produced
by sharp's decode+resize is modelled as a list of byte values, and a sharp
failure as the `.error` case of an `Except`.  The ONNX session is an abstract
function from the input tensor to either an output data array or a thrown
error message.
-/

namespace AnemiaModel

/-- A JavaScript number: a finite value (exact rational) or one of the
non-finite values `NaN`, `Infinity`, `-Infinity`. -/
inductive JsNum where
  | num (q : ℚ)
  | nan
  | inf
  | negInf
deriving DecidableEq, Repr

/-- `Number.isFinite` (which is false on `NaN` as well, so the source's extra
`Number.isNaN(v)` disjunct at line 238 of part_002 is subsumed). -/
def JsNum.isFinite : JsNum → Bool
  | .num _ => true
  | _ => false

/-- The JavaScript `>` comparison on numbers: any comparison involving `NaN`
is false; `Infinity` is greater than every finite value and `-Infinity`. -/
def JsNum.jsGt : JsNum → JsNum → Bool
  | .num a, .num b => decide (b < a)
  | .inf, .num _ => true
  | .inf, .negInf => true
  | .num _, .negInf => true
  | _, _ => false

/-- An `ort.Tensor`: flat data array plus declared dims
(part_002 line 221: `new ort.Tensor('float32', float32Data, [1, 3, 224, 224])`). -/
structure Tensor where
  data : List JsNum
  dims : List ℕ
deriving DecidableEq, Repr

/-- Errors thrown inside `ModelManager.preprocessImage` /
`ModelManager.validateModelInput` (the spec's `PreprocessingError` and
`InvalidTensorError`). -/
inductive AdapterError where
  | preprocessingError (msg : String)
  | invalidTensorError
deriving DecidableEq, Repr

/-- The message carried by the thrown `Error` object: `preprocessImage`
wraps every failure as "Image preprocessing failed: ..." (part_002 line 228);
`validateModelInput` throws with a fixed message (line 243). -/
def AdapterError.message : AdapterError → String
  | .preprocessingError m => "Image preprocessing failed: " ++ m
  | .invalidTensorError => "Input tensor contains NaN or infinite values"

/-- 224 * 224, the `totalPixels` constant of part_002 line 169. -/
def totalPixels : ℕ := 224 * 224

/-- 224 * 224 * 3, the `expectedSize` constant of part_002 line 156. -/
def expectedSize : ℕ := 224 * 224 * 3

/-- ImageNet per-channel mean, `mean = [0.485, 0.456, 0.406]` (line 165). -/
def mean : ℕ → ℚ
  | 0 => 0.485
  | 1 => 0.456
  | _ => 0.406

/-- ImageNet per-channel std, `std = [0.229, 0.224, 0.225]` (line 166). -/
def std : ℕ → ℚ
  | 0 => 0.229
  | 1 => 0.224
  | _ => 0.225

/-- Per-channel normalization of a raw byte, exactly the source's
`(raw / 255.0 - mean[c]) / std[c]` (part_002 lines 185-187). -/
def normalize (raw : ℕ) (c : ℕ) : ℚ :=
  ((raw : ℚ) / 255 - mean c) / std c

/-- Value stored at flat output index `j` of the `float32Data` array.  The
source loop writes, for each pixel `i < totalPixels`,
`float32Data[i] = r_norm`, `float32Data[i + totalPixels] = g_norm`,
`float32Data[i + 2*totalPixels] = b_norm` where the raw bytes are read from
the HWC buffer at `buffer[i*3 + c]` (lines 178-196); equivalently, output
index `j` holds channel `j / totalPixels` of pixel `j % totalPixels`. -/
def float32Data (buffer : List ℕ) (j : ℕ) : ℚ :=
  normalize (buffer.getD ((j % totalPixels) * 3 + j / totalPixels) 0) (j / totalPixels)

/-- The tensor built from a (length-checked) pixel buffer: the filled
`Float32Array(3 * 224 * 224)` with dims `[1, 3, 224, 224]`. -/
def mkTensor (buffer : List ℕ) : Tensor :=
  { data := (List.range expectedSize).map (fun j => JsNum.num (float32Data buffer j)),
    dims := [1, 3, 224, 224] }

/-- `ModelManager.preprocessImage` on the result of sharp's
decode+resize+removeAlpha (`.error` models a sharp throw): check the buffer
size against `expectedSize` before normalizing (lines 155-159), then build
the normalized NCHW tensor; any error is rethrown wrapped as
"Image preprocessing failed: ..." (lines 226-229). -/
def preprocessImage (decoded : Except String (List ℕ)) : Except AdapterError Tensor :=
  match decoded with
  | .error msg => .error (.preprocessingError msg)
  | .ok buffer =>
    if buffer.length ≠ expectedSize then
      .error (.preprocessingError "Buffer size mismatch")
    else
      .ok (mkTensor buffer)

/-- `ModelManager.validateModelInput` (lines 232-248): throws if any tensor
value is `NaN` or non-finite.  (The source's structural check at line 233 on
`inputTensor.data` cannot fire in this embedding, where a `Tensor` is always
a well-formed record.) -/
def validateModelInput (t : Tensor) : Except AdapterError Unit :=
  if t.data.any (fun v => ! v.isFinite) then .error .invalidTensorError
  else .ok ()

/-- A loaded ONNX session, as an abstract `run` from the input tensor to
either the output data array or a thrown error message. -/
structure Session where
  run : Tensor → Except String (List JsNum)

/-- The object returned by `ModelManager.predict`: prediction label,
confidence, fallback flag, optional error message (only on the catch path),
and the raw output data (the `debug.rawOutput` field, only on success). -/
structure PredictResult where
  prediction : String
  confidence : JsNum
  usingDefaultPrediction : Bool
  error : Option String
  rawOutput : Option (List JsNum)
deriving DecidableEq, Repr

/-- The cautious default returned when no model is loaded
(part_002 lines 257-261): no `error` field. -/
def noModelDefault : PredictResult :=
  { prediction := "Anemic", confidence := JsNum.num 0.8,
    usingDefaultPrediction := true, error := none, rawOutput := none }

/-- The cautious default returned by `predict`'s catch-all
(part_002 lines 341-346): the thrown error's message is attached. -/
def defaultErrorResult (msg : String) : PredictResult :=
  { prediction := "Anemic", confidence := JsNum.num 0.8,
    usingDefaultPrediction := true, error := some msg, rawOutput := none }

/-- `ModelManager.predict` (part_002 lines 250-348).  The image argument is
represented by the decoded pixel buffer (or sharp failure) it gives rise to.
If no session is loaded, return the cautious default; otherwise preprocess,
validate, run inference, and interpret `outputData[0]` with the
`rawConfidence > 0.5` rule (lines 314-320); every error thrown on the way is
caught and converted to the cautious default with the message attached.
`outputData[0]` on an empty array is JavaScript `undefined`, which compares
like `NaN`; it is modelled by `JsNum.nan`. -/
def predict (sessionONNX : Option Session) (decoded : Except String (List ℕ)) :
    PredictResult :=
  match sessionONNX with
  | none => noModelDefault
  | some sess =>
    match preprocessImage decoded with
    | .error e => defaultErrorResult e.message
    | .ok inputTensor =>
      match validateModelInput inputTensor with
      | .error e => defaultErrorResult e.message
      | .ok _ =>
        match sess.run inputTensor with
        | .error msg => defaultErrorResult msg
        | .ok outputData =>
          let rawConfidence := outputData.getD 0 JsNum.nan
          if rawConfidence.jsGt (JsNum.num 0.5) then
            { prediction := "Non-anemic", confidence := rawConfidence,
              usingDefaultPrediction := false, error := none,
              rawOutput := some outputData }
          else
            { prediction := "Anemic", confidence := rawConfidence,
              usingDefaultPrediction := false, error := none,
              rawOutput := some outputData }

/-- An uploaded file as seen by multer / `validateImageFile`. -/
structure JsFile where
  size : ℕ
  mimetype : String
  originalname : String
deriving DecidableEq, Repr

/-- `allowedTypes` of part_002 line 368. -/
def allowedTypes : List String :=
  ["image/jpeg", "image/jpg", "image/png", "image/gif", "image/webp"]

/-- `allowedExtensions` of part_002 line 374. -/
def allowedExtensions : List String :=
  [".jpg", ".jpeg", ".png", ".gif", ".webp"]

/-- Suffix of a character list starting at its last `.`, if any. -/
def lastDotSuffix : List Char → Option (List Char)
  | [] => none
  | c :: cs =>
    match lastDotSuffix cs with
    | some e => some e
    | none => if c = '.' then some (c :: cs) else none

/-- Node's `path.extname`: the part of the basename from its last `.` to the
end; empty if the basename has no `.` or only a leading one. -/
def extname (name : String) : String :=
  match (name.toList.splitOn '/').getLastD [] with
  | [] => ""
  | _ :: rest =>
    match lastDotSuffix rest with
    | some e => String.mk e
    | none => ""

/-- JavaScript's `.toLowerCase()`, character by character. -/
def toLowerStr (s : String) : String := String.mk (s.toList.map Char.toLower)

/-- `ModelManager.validateImageFile` (part_002 lines 350-381): collect the
error strings, in the source's push order. -/
def validateImageFile (file : Option JsFile) : List String :=
  match file with
  | none => ["No file provided"]
  | some f =>
    (if f.size > 10 * 1024 * 1024 then ["File size exceeds 10MB limit"] else []) ++
    (if f.size < 1024 then ["File size too small (minimum 1KB)"] else []) ++
    (if allowedTypes.contains f.mimetype then []
     else ["Invalid file type. Please upload JPEG, PNG, GIF, or WebP images only."]) ++
    (if allowedExtensions.contains (toLowerStr (extname f.originalname)) then []
     else ["Invalid file extension"])

/-- The multer `fileFilter` of src/server.js lines 439-456: accept the upload
exactly when `validateImageFile` reports no errors; a rejected upload never
reaches the `/predict` handler, so no preprocessing runs and no tensor is
constructed. -/
def fileFilterAccepts (file : Option JsFile) : Bool :=
  (validateImageFile file).isEmpty

/-! ### Concrete objects used by witnesses and counterexamples -/

/-- A uniform gray image after decode+resize: all bytes 128. -/
def grayBuffer : List ℕ := List.replicate expectedSize 128

/-- A session whose model outputs the raw scalar 0.5. -/
def halfSession : Session := { run := fun _ => .ok [JsNum.num 0.5] }

/-- A session whose model outputs the raw scalar 1. -/
def oneSession : Session := { run := fun _ => .ok [JsNum.num 1] }

/-- A session whose inference call throws. -/
def failSession : Session := { run := fun _ => .error "boom" }

/-- A concrete invalid upload: empty, wrong MIME type, wrong extension. -/
def badFile : JsFile :=
  { size := 0, mimetype := "text/plain", originalname := "notes.txt" }

/-- A concrete valid upload. -/
def goodFile : JsFile :=
  { size := 2048, mimetype := "image/png", originalname := "photo.PNG" }

/-! ### Helper lemmas -/

theorem totalPixels_eq : totalPixels = 50176 := by norm_num [totalPixels]

theorem expectedSize_eq : expectedSize = 150528 := by norm_num [expectedSize]

theorem grayBuffer_length : grayBuffer.length = expectedSize := by
  simp [grayBuffer]

theorem preprocessImage_ok (buffer : List ℕ) (h : buffer.length = expectedSize) :
    preprocessImage (.ok buffer) = .ok (mkTensor buffer) := by
  simp [preprocessImage, h]

theorem validateModelInput_mkTensor (buffer : List ℕ) :
    validateModelInput (mkTensor buffer) = .ok () := by
  have h : ((List.range expectedSize).map
      (fun j => JsNum.num (float32Data buffer j))).any (fun v => ! v.isFinite) = false := by
    simp [List.any_map, Function.comp, JsNum.isFinite]
  simp [validateModelInput, mkTensor, h]

theorem preprocessImage_ok_inv (d : Except String (List ℕ)) (t : Tensor)
    (h : preprocessImage d = .ok t) :
    ∃ buffer, d = .ok buffer ∧ buffer.length = expectedSize ∧ t = mkTensor buffer := by
  cases d with
  | error m => simp [preprocessImage] at h
  | ok buffer =>
    by_cases hl : buffer.length = expectedSize
    · refine ⟨buffer, rfl, hl, ?_⟩
      simp [preprocessImage, hl] at h
      exact h.symm
    · simp [preprocessImage, hl] at h

/-! ### Claims -/

/-- C1: whenever the model produces a raw scalar output `q`, the adapter
labels the result "Non-anemic" exactly when `q > 0.5` and "Anemic" exactly
when `q ≤ 0.5` (so `q = 0.5` classifies as "Anemic"), and in both branches
the reported confidence is the raw score `q` itself, never `1 - q`. -/
theorem decision_rule (s : Session) (d : Except String (List ℕ)) (t : Tensor)
    (out : List JsNum) (q : ℚ)
    (hp : preprocessImage d = .ok t)
    (hv : validateModelInput t = .ok ())
    (hr : s.run t = .ok out)
    (hq : out.getD 0 JsNum.nan = JsNum.num q) :
    (q > 0.5 → predict (some s) d =
      { prediction := "Non-anemic", confidence := JsNum.num q,
        usingDefaultPrediction := false, error := none, rawOutput := some out }) ∧
    (q ≤ 0.5 → predict (some s) d =
      { prediction := "Anemic", confidence := JsNum.num q,
        usingDefaultPrediction := false, error := none, rawOutput := some out }) := by
  rw [List.getD_eq_getElem?_getD] at hq
  constructor
  · intro h
    simp [predict, hp, hv, hr, hq, JsNum.jsGt, h]
  · intro h
    simp [predict, hp, hv, hr, hq, JsNum.jsGt, not_lt.mpr h]

/-- Witness for C1: the boundary raw output 0.5 on a concrete gray image is
labelled "Anemic" with confidence 0.5 (the raw value, not 1 - 0.5). -/
theorem decision_rule_witness :
    preprocessImage (.ok grayBuffer) = .ok (mkTensor grayBuffer) ∧
    validateModelInput (mkTensor grayBuffer) = .ok () ∧
    halfSession.run (mkTensor grayBuffer) = .ok [JsNum.num 0.5] ∧
    predict (some halfSession) (.ok grayBuffer) =
      { prediction := "Anemic", confidence := JsNum.num 0.5,
        usingDefaultPrediction := false, error := none,
        rawOutput := some [JsNum.num 0.5] } := by
  have hp : preprocessImage (.ok grayBuffer) = .ok (mkTensor grayBuffer) :=
    preprocessImage_ok _ grayBuffer_length
  have hv := validateModelInput_mkTensor grayBuffer
  have h := decision_rule halfSession (.ok grayBuffer) (mkTensor grayBuffer)
    [JsNum.num 0.5] 0.5 hp hv rfl rfl
  exact ⟨hp, hv, rfl, h.2 le_rfl⟩

/-- C2: with no model loaded, `predict` returns the fixed cautious default
(prediction "Anemic", confidence 0.8, `usingDefaultPrediction = true`, no
error field); and when inference throws, it returns the same cautious
default with the error message attached — in both cases it returns a result
instead of propagating the failure. -/
theorem fallback_default (d : Except String (List ℕ)) (s : Session) (t : Tensor)
    (msg : String) :
    predict none d = noModelDefault ∧
    noModelDefault =
      { prediction := "Anemic", confidence := JsNum.num 0.8,
        usingDefaultPrediction := true, error := none, rawOutput := none } ∧
    (preprocessImage d = .ok t → validateModelInput t = .ok () →
      s.run t = .error msg → predict (some s) d = defaultErrorResult msg) ∧
    defaultErrorResult msg =
      { prediction := "Anemic", confidence := JsNum.num 0.8,
        usingDefaultPrediction := true, error := some msg, rawOutput := none } := by
  refine ⟨rfl, rfl, ?_, rfl⟩
  intro hp hv hr
  simp [predict, hp, hv, hr]

/-- Witness for C2: the no-model default on a concrete input, and the
inference-failure default for a concrete throwing session. -/
theorem fallback_default_witness :
    predict none (.ok grayBuffer) = noModelDefault ∧
    failSession.run (mkTensor grayBuffer) = .error "boom" ∧
    predict (some failSession) (.ok grayBuffer) = defaultErrorResult "boom" := by
  have h := fallback_default (.ok grayBuffer) failSession (mkTensor grayBuffer) "boom"
  exact ⟨h.1, rfl,
    h.2.2.1 (preprocessImage_ok _ grayBuffer_length) (validateModelInput_mkTensor _) rfl⟩

/-- C3 counterexample: a buffer-size failure during a prediction does NOT
reach the caller as an error — `predict`'s catch-all converts it into the
default "Anemic"/0.8 result (with `usingDefaultPrediction = true`), contrary
to the claim that `PreprocessingError` is propagated as a hard failure.
Concrete input: a decoded buffer of length 1, with a loaded session. -/
theorem preprocessing_error_absorbed :
    preprocessImage (.ok [0]) =
      .error (.preprocessingError "Buffer size mismatch") ∧
    predict (some oneSession) (.ok [0]) =
      defaultErrorResult "Image preprocessing failed: Buffer size mismatch" ∧
    (predict (some oneSession) (.ok [0])).prediction = "Anemic" ∧
    (predict (some oneSession) (.ok [0])).confidence = JsNum.num 0.8 ∧
    (predict (some oneSession) (.ok [0])).usingDefaultPrediction = true := by
  have h1 : preprocessImage (.ok [0]) =
      .error (.preprocessingError "Buffer size mismatch") := by
    simp [preprocessImage, expectedSize]
  have h2 : predict (some oneSession) (.ok [0]) =
      defaultErrorResult "Image preprocessing failed: Buffer size mismatch" := by
    simp [predict, h1, AdapterError.message]
  exact ⟨h1, h2, by rw [h2]; rfl, by rw [h2]; rfl, by rw [h2]; rfl⟩

/-- C3 amended: only the upload-validation failure (`UnsupportedFileError`)
is a hard failure, rejected by the multer fileFilter before `predict` ever
runs; every error thrown inside `predict` — preprocessing errors (including
buffer-size mismatches), tensor-validation errors, and inference errors —
is absorbed by its catch-all into the default "Anemic"/0.8 result with
`usingDefaultPrediction = true` and the error message attached. -/
theorem error_absorption (f : JsFile) (s : Session) (d : Except String (List ℕ))
    (e : AdapterError) (t : Tensor) (msg : String) :
    (validateImageFile (some f) ≠ [] → fileFilterAccepts (some f) = false) ∧
    (preprocessImage d = .error e →
      predict (some s) d = defaultErrorResult e.message) ∧
    (preprocessImage d = .ok t → s.run t = .error msg →
      predict (some s) d = defaultErrorResult msg) := by
  refine ⟨?_, ?_, ?_⟩
  · intro h
    simpa [fileFilterAccepts, List.isEmpty_iff] using h
  · intro hp
    simp [predict, hp]
  · intro hp hr
    have hv : validateModelInput t = .ok () := by
      obtain ⟨buffer, hd, hl, ht⟩ := preprocessImage_ok_inv d t hp
      rw [ht]
      exact validateModelInput_mkTensor buffer
    simp [predict, hp, hv, hr]

/-- Witness for C3's amended statement: a concretely invalid upload is
rejected by the filter; a sharp decode failure and an inference failure both
come back as the default result from `predict`. -/
theorem error_absorption_witness :
    validateImageFile (some badFile) ≠ [] ∧
    fileFilterAccepts (some badFile) = false ∧
    predict (some oneSession) (.error "sharp failed") =
      defaultErrorResult "Image preprocessing failed: sharp failed" ∧
    predict (some failSession) (.ok grayBuffer) = defaultErrorResult "boom" := by
  have hne : validateImageFile (some badFile) ≠ [] := by decide
  have h := error_absorption badFile oneSession (Except.error "sharp failed")
    (.preprocessingError "sharp failed") (mkTensor grayBuffer) "boom"
  have h2 := error_absorption badFile failSession (Except.ok grayBuffer)
    (.preprocessingError "sharp failed") (mkTensor grayBuffer) "boom"
  exact ⟨hne, h.1 hne, h.2.1 rfl,
    h2.2.2 (preprocessImage_ok _ grayBuffer_length) rfl⟩

/-- C4: a decoded buffer whose length is not 150528 makes preprocessing fail
with the buffer-size `PreprocessingError`, before any normalization (the
size guard precedes tensor construction, and the resulting `predict` outcome
is independent of the model); and a tensor holding any `NaN`/infinite value
makes `validateModelInput` fail with `InvalidTensorError` (in `predict` this
validation runs before the session is invoked). -/
theorem preprocess_guards (buffer : List ℕ) (t : Tensor) (s : Session)
    (hb : buffer.length ≠ expectedSize)
    (hv : ∃ v ∈ t.data, v.isFinite = false) :
    preprocessImage (.ok buffer) =
      .error (.preprocessingError "Buffer size mismatch") ∧
    predict (some s) (.ok buffer) =
      defaultErrorResult "Image preprocessing failed: Buffer size mismatch" ∧
    validateModelInput t = .error .invalidTensorError := by
  have h1 : preprocessImage (.ok buffer) =
      .error (.preprocessingError "Buffer size mismatch") := by
    simp [preprocessImage, hb]
  refine ⟨h1, ?_, ?_⟩
  · simp [predict, h1, AdapterError.message]
  · obtain ⟨v, hm, hf⟩ := hv
    have ha : t.data.any (fun v => ! v.isFinite) = true :=
      List.any_eq_true.mpr ⟨v, hm, by simp [hf]⟩
    simp [validateModelInput, ha]

/-- Witness for C4: a length-1 buffer and a tensor containing `NaN`. -/
theorem preprocess_guards_witness :
    (([0] : List ℕ).length ≠ expectedSize ∧
      (∃ v ∈ (Tensor.mk [JsNum.nan] [1]).data, v.isFinite = false)) ∧
    preprocessImage (.ok [0]) =
      .error (.preprocessingError "Buffer size mismatch") ∧
    predict (some halfSession) (.ok [0]) =
      defaultErrorResult "Image preprocessing failed: Buffer size mismatch" ∧
    validateModelInput (Tensor.mk [JsNum.nan] [1]) =
      .error .invalidTensorError := by
  have hb : ([0] : List ℕ).length ≠ expectedSize := by simp [expectedSize]
  have hv : ∃ v ∈ (Tensor.mk [JsNum.nan] [1]).data, v.isFinite = false :=
    ⟨JsNum.nan, by simp, rfl⟩
  have h := preprocess_guards [0] (Tensor.mk [JsNum.nan] [1]) halfSession hb hv
  exact ⟨⟨hb, hv⟩, h.1, h.2.1, h.2.2⟩

theorem chw_index (c i : ℕ) (_hc : c < 3) (hi : i < totalPixels) :
    (c * totalPixels + i) / totalPixels = c ∧
    (c * totalPixels + i) % totalPixels = i := by
  rw [totalPixels_eq] at hi ⊢
  omega

theorem grayBuffer_getD (k : ℕ) (hk : k < expectedSize) :
    grayBuffer.getD k 0 = 128 := by
  simp [grayBuffer, List.getD_eq_getElem?_getD, List.getElem?_replicate_of_lt hk]

theorem pixel_index_lt (c i : ℕ) (hc : c < 3) (hi : i < totalPixels) :
    i * 3 + c < expectedSize ∧ c * totalPixels + i < expectedSize := by
  rw [totalPixels_eq] at hi ⊢
  rw [expectedSize_eq]
  omega

/-- C5: the value at output position (pixel `i`, channel `c`) is exactly
`(raw / 255 - mean[c]) / std[c]` where `raw` is the HWC byte `buffer[i*3+c]`,
with the ImageNet constants; for the uniform gray image (all bytes 128)
every channel-`c` entry equals `(128/255 - mean[c]) / std[c]` exactly (hence
in particular to 4 decimal places). -/
theorem normalization_formula (buffer : List ℕ) (i c : ℕ)
    (hi : i < totalPixels) (hc : c < 3) :
    float32Data buffer (c * totalPixels + i) =
      ((buffer.getD (i * 3 + c) 0 : ℚ) / 255 - mean c) / std c ∧
    float32Data grayBuffer (c * totalPixels + i) =
      ((128 : ℚ) / 255 - mean c) / std c := by
  obtain ⟨hdiv, hmod⟩ := chw_index c i hc hi
  have hlt := (pixel_index_lt c i hc hi).1
  constructor
  · unfold float32Data normalize
    rw [hdiv, hmod]
  · unfold float32Data normalize
    rw [hdiv, hmod, grayBuffer_getD (i * 3 + c) hlt]
    norm_num

/-- Witness for C5: concrete instances at pixel 0 for the three channels of
the gray image, and the agreement of the exact values with their 4-decimal
roundings 0.0741, 0.2052, 0.4265 (to within 1/10^4). -/
theorem normalization_formula_witness :
    (0 < totalPixels ∧ 0 < 3 ∧ 1 < 3 ∧ 2 < 3) ∧
    float32Data grayBuffer (0 * totalPixels + 0) =
      ((128 : ℚ) / 255 - mean 0) / std 0 ∧
    float32Data grayBuffer (1 * totalPixels + 0) =
      ((128 : ℚ) / 255 - mean 1) / std 1 ∧
    float32Data grayBuffer (2 * totalPixels + 0) =
      ((128 : ℚ) / 255 - mean 2) / std 2 ∧
    |((128 : ℚ) / 255 - mean 0) / std 0 - 0.0741| < 1 / 10 ^ 4 ∧
    |((128 : ℚ) / 255 - mean 1) / std 1 - 0.2052| < 1 / 10 ^ 4 ∧
    |((128 : ℚ) / 255 - mean 2) / std 2 - 0.4265| < 1 / 10 ^ 4 := by
  have h0 : (0 : ℕ) < totalPixels := by rw [totalPixels_eq]; omega
  refine ⟨⟨h0, by omega, by omega, by omega⟩, ?_, ?_, ?_, ?_, ?_, ?_⟩
  · exact (normalization_formula grayBuffer 0 0 h0 (by omega)).2
  · exact (normalization_formula grayBuffer 0 1 h0 (by omega)).2
  · exact (normalization_formula grayBuffer 0 2 h0 (by omega)).2
  · simp only [mean, std]
    rw [abs_lt]
    constructor <;> norm_num
  · simp only [mean, std]
    rw [abs_lt]
    constructor <;> norm_num
  · simp only [mean, std]
    rw [abs_lt]
    constructor <;> norm_num

/-- C6: the tensor is laid out channel-first: for each pixel `i` (row-major
over the 50176 pixels) and channel `c < 3`, the normalized value of HWC byte
`buffer[i*3+c]` is stored at flat output index `c * 50176 + i`, so indices
[0, 50176) hold Red, [50176, 100352) Green, [100352, 150528) Blue. -/
theorem chw_layout (buffer : List ℕ) (i c : ℕ)
    (hi : i < totalPixels) (hc : c < 3) :
    totalPixels = 50176 ∧
    (mkTensor buffer).data[c * totalPixels + i]? =
      some (JsNum.num (normalize (buffer.getD (i * 3 + c) 0) c)) := by
  obtain ⟨hdiv, hmod⟩ := chw_index c i hc hi
  have hj := (pixel_index_lt c i hc hi).2
  refine ⟨totalPixels_eq, ?_⟩
  have hmap : (mkTensor buffer).data[c * totalPixels + i]? =
      some (JsNum.num (float32Data buffer (c * totalPixels + i))) := by
    simp [mkTensor, List.getElem?_map, List.getElem?_range hj]
  rw [hmap]
  unfold float32Data
  rw [hdiv, hmod]

/-- Witness for C6: the Green-channel entry of pixel 5 of the gray image sits
at flat index 1 * 50176 + 5. -/
theorem chw_layout_witness :
    (5 < totalPixels ∧ 1 < 3) ∧
    (mkTensor grayBuffer).data[1 * totalPixels + 5]? =
      some (JsNum.num (normalize (grayBuffer.getD (5 * 3 + 1) 0) 1)) := by
  have h5 : (5 : ℕ) < totalPixels := by rw [totalPixels_eq]; omega
  exact ⟨⟨h5, by omega⟩, (chw_layout grayBuffer 5 1 h5 (by omega)).2⟩

/-- A session that answers 0.5 on well-sized tensors but 1 elsewhere; used
to witness that `predict` only ever shows the model length-150528 tensors. -/
def halfOnValid : Session :=
  { run := fun t =>
      if t.data.length = 150528 then .ok [JsNum.num 0.5] else .ok [JsNum.num 1] }

set_option maxRecDepth 4000 in
/-- C7: every tensor produced by successful preprocessing has exactly
3 × 224 × 224 = 150528 entries, all finite, with declared dims
[1, 3, 224, 224]; and `predict`'s outcome only depends on the model's
behaviour on length-150528 tensors — the model is never handed a tensor of
any other length. -/
theorem tensor_invariant (d : Except String (List ℕ)) (t : Tensor)
    (s₁ s₂ : Session) (hp : preprocessImage d = .ok t) :
    t.data.length = 150528 ∧
    (∀ v ∈ t.data, v.isFinite = true) ∧
    t.dims = [1, 3, 224, 224] ∧
    ((∀ u : Tensor, u.data.length = 150528 → s₁.run u = s₂.run u) →
      predict (some s₁) d = predict (some s₂) d) := by
  obtain ⟨buffer, hd, hl, ht⟩ := preprocessImage_ok_inv d t hp
  have hlen : t.data.length = 150528 := by
    rw [ht]
    simp [mkTensor, expectedSize_eq]
  have hv : validateModelInput t = .ok () := by
    rw [ht]
    exact validateModelInput_mkTensor buffer
  refine ⟨hlen, ?_, by rw [ht]; rfl, ?_⟩
  · intro v hmem
    rw [ht] at hmem
    simp only [mkTensor] at hmem
    simp only [List.mem_map] at hmem
    obtain ⟨j, hj, hjv⟩ := hmem
    rw [← hjv]
    rfl
  · intro hrun
    simp only [predict, hp, hv]
    rw [hrun _ hlen]

/-- Witness for C7: the gray image's tensor, and two sessions that agree on
length-150528 tensors yielding the same prediction. -/
theorem tensor_invariant_witness :
    preprocessImage (.ok grayBuffer) = .ok (mkTensor grayBuffer) ∧
    (mkTensor grayBuffer).data.length = 150528 ∧
    (∀ v ∈ (mkTensor grayBuffer).data, v.isFinite = true) ∧
    (mkTensor grayBuffer).dims = [1, 3, 224, 224] ∧
    predict (some halfSession) (.ok grayBuffer) =
      predict (some halfOnValid) (.ok grayBuffer) := by
  have hp := preprocessImage_ok grayBuffer grayBuffer_length
  have h := tensor_invariant (.ok grayBuffer) (mkTensor grayBuffer)
    halfSession halfOnValid hp
  refine ⟨hp, h.1, h.2.1, h.2.2.1, h.2.2.2 ?_⟩
  intro u hu
  simp [halfSession, halfOnValid, hu]

/-- C8: an uploaded file that is oversized (> 10 MB), undersized (< 1 KB),
of a disallowed MIME type, or with a disallowed (case-folded) extension gets
a non-empty error list from `validateImageFile` and is rejected by the
multer fileFilter — the `/predict` handler, and hence preprocessing, never
runs for it; a file satisfying all four constraints validates with an empty
error list and is accepted. -/
theorem upload_validation (f : JsFile) :
    ((f.size > 10 * 1024 * 1024 ∨ f.size < 1024 ∨
      f.mimetype ∉ allowedTypes ∨
      toLowerStr (extname f.originalname) ∉ allowedExtensions) →
        validateImageFile (some f) ≠ [] ∧ fileFilterAccepts (some f) = false) ∧
    ((f.size ≤ 10 * 1024 * 1024 ∧ 1024 ≤ f.size ∧
      f.mimetype ∈ allowedTypes ∧
      toLowerStr (extname f.originalname) ∈ allowedExtensions) →
        validateImageFile (some f) = [] ∧ fileFilterAccepts (some f) = true) := by
  constructor
  · intro h
    have hne : validateImageFile (some f) ≠ [] := by
      rcases h with h | h | h | h
      · exact List.ne_nil_of_mem
          (show "File size exceeds 10MB limit" ∈ validateImageFile (some f) by
            simp [validateImageFile, h])
      · exact List.ne_nil_of_mem
          (show "File size too small (minimum 1KB)" ∈ validateImageFile (some f) by
            simp [validateImageFile, h])
      · exact List.ne_nil_of_mem (show
          "Invalid file type. Please upload JPEG, PNG, GIF, or WebP images only." ∈
            validateImageFile (some f) by simp [validateImageFile, h])
      · exact List.ne_nil_of_mem
          (show "Invalid file extension" ∈ validateImageFile (some f) by
            simp [validateImageFile, h])
    refine ⟨hne, ?_⟩
    simpa [fileFilterAccepts, List.isEmpty_iff] using hne
  · rintro ⟨h1, h2, h3, h4⟩
    have he : validateImageFile (some f) = [] := by
      simp [validateImageFile, not_lt.mpr h1, not_lt.mpr h2, h3, h4]
    exact ⟨he, by simp [fileFilterAccepts, he]⟩

/-- Witness for C8: a concrete valid PNG upload passes with no errors; a
concrete text file is rejected. -/
theorem upload_validation_witness :
    (goodFile.size ≤ 10 * 1024 * 1024 ∧ 1024 ≤ goodFile.size ∧
      goodFile.mimetype ∈ allowedTypes ∧
      toLowerStr (extname goodFile.originalname) ∈ allowedExtensions) ∧
    validateImageFile (some goodFile) = [] ∧
    fileFilterAccepts (some goodFile) = true ∧
    badFile.mimetype ∉ allowedTypes ∧
    validateImageFile (some badFile) ≠ [] ∧
    fileFilterAccepts (some badFile) = false := by
  have hgood : goodFile.size ≤ 10 * 1024 * 1024 ∧ 1024 ≤ goodFile.size ∧
      goodFile.mimetype ∈ allowedTypes ∧
      toLowerStr (extname goodFile.originalname) ∈ allowedExtensions := by
    refine ⟨by norm_num [goodFile], by norm_num [goodFile], by decide, by decide⟩
  have hbadType : badFile.mimetype ∉ allowedTypes := by decide
  have hg := (upload_validation goodFile).2 hgood
  have hb := (upload_validation badFile).1 (Or.inr (Or.inr (Or.inl hbadType)))
  exact ⟨hgood, hg.1, hg.2, hbadType, hb.1, hb.2⟩

/-- C9: the prediction pipeline is deterministic — for a fixed loaded
session, two invocations of `predict` on equal input bytes produce the same
label, the same confidence, and the same `usingDefaultPrediction` flag (the
embedding of the source pipeline is a pure function of the session and the
decoded input; the source's predict path draws no randomness). -/
theorem predict_deterministic (s : Option Session)
    (d d' : Except String (List ℕ)) (h : d = d') :
    (predict s d).prediction = (predict s d').prediction ∧
    (predict s d).confidence = (predict s d').confidence ∧
    (predict s d).usingDefaultPrediction = (predict s d').usingDefaultPrediction := by
  rw [h]
  exact ⟨rfl, rfl, rfl⟩

/-- Witness for C9: repeated runs on the concrete gray image with the
concrete half-output session agree. -/
theorem predict_deterministic_witness :
    (Except.ok grayBuffer : Except String (List ℕ)) = .ok grayBuffer ∧
    (predict (some halfSession) (.ok grayBuffer)).prediction =
      (predict (some halfSession) (.ok grayBuffer)).prediction ∧
    (predict (some halfSession) (.ok grayBuffer)).confidence =
      (predict (some halfSession) (.ok grayBuffer)).confidence ∧
    (predict (some halfSession) (.ok grayBuffer)).usingDefaultPrediction =
      (predict (some halfSession) (.ok grayBuffer)).usingDefaultPrediction := by
  exact ⟨rfl, predict_deterministic (some halfSession) (.ok grayBuffer) (.ok grayBuffer) rfl⟩

/-- The paths on which `predict` falls back to the cautious default: no
session loaded, preprocessing threw, tensor validation threw, or inference
threw. -/
def isFallback (s : Option Session) (d : Except String (List ℕ)) : Bool :=
  match s with
  | none => true
  | some sess =>
    match preprocessImage d with
    | .error _ => true
    | .ok t =>
      match validateModelInput t with
      | .error _ => true
      | .ok _ =>
        match sess.run t with
        | .error _ => true
        | .ok _ => false

/-- C10: `predict` is total at its interface — for every session state and
every decoded-input outcome (including decode failures and wrong-sized
buffers) it returns a result (never throws, by construction of the
embedding), the `prediction` field is always "Anemic" or "Non-anemic", the
`usingDefaultPrediction` boolean is true exactly on the fallback paths, and
on those fallback paths the confidence is the number 0.8. -/
theorem predict_total (s : Option Session) (d : Except String (List ℕ)) :
    ((predict s d).prediction = "Anemic" ∨
      (predict s d).prediction = "Non-anemic") ∧
    (predict s d).usingDefaultPrediction = isFallback s d ∧
    (isFallback s d = true → (predict s d).confidence = JsNum.num 0.8) := by
  cases s with
  | none => exact ⟨Or.inl rfl, rfl, fun _ => rfl⟩
  | some sess =>
    cases hp : preprocessImage d with
    | error e =>
      refine ⟨Or.inl ?_, ?_, fun _ => ?_⟩ <;> simp [predict, isFallback, hp] <;>
        rfl
    | ok t =>
      cases hv : validateModelInput t with
      | error e =>
        refine ⟨Or.inl ?_, ?_, fun _ => ?_⟩ <;>
          simp [predict, isFallback, hp, hv] <;> rfl
      | ok u =>
        cases u
        cases hr : sess.run t with
        | error msg =>
          refine ⟨Or.inl ?_, ?_, fun _ => ?_⟩ <;>
            simp [predict, isFallback, hp, hv, hr] <;> rfl
        | ok out =>
          by_cases hgt : (out[0]?.getD JsNum.nan).jsGt (JsNum.num 0.5) = true
          · refine ⟨Or.inr ?_, ?_, fun hf => ?_⟩
            · simp [predict, hp, hv, hr, hgt]
            · simp [predict, isFallback, hp, hv, hr, hgt]
            · rw [isFallback] at hf
              simp [hp, hv, hr] at hf
          · refine ⟨Or.inl ?_, ?_, fun hf => ?_⟩
            · simp [predict, hp, hv, hr, hgt]
            · simp [predict, isFallback, hp, hv, hr, hgt]
            · rw [isFallback] at hf
              simp [hp, hv, hr] at hf

/-- Witness for C10: on the no-model fallback path with a concrete input the
result is a well-formed "Anemic" default with confidence 0.8. -/
theorem predict_total_witness :
    isFallback none (.ok grayBuffer) = true ∧
    ((predict none (.ok grayBuffer)).prediction = "Anemic" ∨
      (predict none (.ok grayBuffer)).prediction = "Non-anemic") ∧
    (predict none (.ok grayBuffer)).usingDefaultPrediction =
      isFallback none (.ok grayBuffer) ∧
    (predict none (.ok grayBuffer)).confidence = JsNum.num 0.8 := by
  have h := predict_total none (.ok grayBuffer)
  exact ⟨rfl, h.1, h.2.1, h.2.2 rfl⟩

end AnemiaModel
